import Mathlib

/-!
Formal model of the SekaiSongCrawl download pipeline (`src/main.py`) and
verification of the specification claims about it.

The Python program is shallowly embedded: the pydantic records become Lean
structures, Python dicts become association lists with the corresponding
insertion semantics, and the effectful worker (`fetch_music`) and loader
(`main`) become pure functions that return the trace of side-effecting steps
(network fetches, file writes, tag writes, progress signals) they would
perform, together with the resulting file-system state.
-/

set_option linter.unusedVariables false

namespace SekaiSongCrawl

/-! Data model: the pydantic records of `src/main.py`. -/

/-- One track of the `musics.json` dataset (`MusicInfo` in `src/main.py`). -/
structure MusicInfo where
  id : Nat
  seq : Nat
  releaseConditionId : Nat
  categories : List String
  title : String
  pronunciation : String
  lyricist : String
  composer : String
  arranger : String
  dancerCount : Nat
  selfDancerPosition : Nat
  assetBundleName : String
  liveTalkBackgroundAssetBundleName : String
  publishedAt : Nat
  liveStageId : Nat
  fillerSec : Nat
  deriving DecidableEq

/-- One character reference inside a vocal variant (`Character` in `src/main.py`). -/
structure Character where
  id : Nat
  musicId : Nat
  musicVocalId : Nat
  characterType : String
  characterId : Nat
  seq : Nat
  deriving DecidableEq

/-- One vocal variant of the `musicVocals.json` dataset (`VocalInfo` in `src/main.py`). -/
structure VocalInfo where
  id : Nat
  musicId : Nat
  musicVocalType : String
  seq : Nat
  releaseConditionId : Nat
  caption : String
  characters : List Character
  assetBundleName : String
  deriving DecidableEq

/-- One guest character of the `outsideCharacters.json` dataset. -/
structure OutsideCharacter where
  id : Nat
  seq : Nat
  name : String
  deriving DecidableEq

/-- One in-game character of the `gameCharacters.json` dataset. -/
structure GameCharacter where
  id : Nat
  seq : Nat
  resourceId : Nat
  firstName : String
  givenName : String
  firstNameRuby : String
  givenNameRuby : String
  gender : String
  height : Nat
  live2dHeightAdjustment : Int
  figure : String
  breastSize : String
  modelName : String
  unit : String
  supportUnitType : String
  deriving DecidableEq

/-- The `full_name` property of `GameCharacter`: first name followed by given name. -/
def GameCharacter.full_name (g : GameCharacter) : String :=
  g.firstName ++ g.givenName

/-! Python dictionaries, modelled as association lists in insertion order. -/

/-- Lookup in a Python dict keyed by `Nat` (first matching entry; keys built by
`dInsert` are unique, matching `dict` semantics). `none` models a `KeyError`. -/
def dLookup {α : Type} : List (Nat × α) → Nat → Option α
  | [], _ => none
  | (k2, v) :: rest, k => if k2 = k then some v else dLookup rest k

/-- Python dict insertion: an existing key is overwritten in place, a fresh key is
appended at the end (insertion order is preserved). -/
def dInsert {α : Type} : List (Nat × α) → Nat → α → List (Nat × α)
  | [], k, v => [(k, v)]
  | (k2, w) :: rest, k, v =>
    if k2 = k then (k2, v) :: rest else (k2, w) :: dInsert rest k v

/-- The dict comprehension `{e.id: e for e in es}` used for both character datasets. -/
def dictById {α : Type} (key : α → Nat) (es : List α) : List (Nat × α) :=
  es.foldl (fun m e => dInsert m (key e) e) []

/-- The global `vocal_map: dict[int, list[VocalInfo]]` of `src/main.py`. -/
abbrev VocalMap := List (Nat × List VocalInfo)

/-- `vocal_map.setdefault(k, []).append(v)`: append `v` to the list of key `k`,
creating the entry with `[v]` when the key is absent. -/
def setdefaultAppend : VocalMap → Nat → VocalInfo → VocalMap
  | [], k, v => [(k, [v])]
  | (k2, l) :: rest, k, v =>
    if k2 = k then (k2, l ++ [v]) :: rest else (k2, l) :: setdefaultAppend rest k v

/-- The vocal-fetching `for` loop of `main`: fold the parsed `VocalInfo` records
into the (pre-existing) `vocal_map` with `setdefaultAppend`.  Crucially, the code
never resets `vocal_map` between loading attempts, so the fold starts from
whatever the map already contains. -/
def buildVocalMapFrom (m : VocalMap) : List VocalInfo → VocalMap
  | [] => m
  | v :: vs => buildVocalMapFrom (setdefaultAppend m v.musicId v) vs

/-- The vocal map produced by folding a vocal list into an empty map. -/
def buildVocalMap (vs : List VocalInfo) : VocalMap :=
  buildVocalMapFrom [] vs

/-- The aggregate of the four module-level collections of `src/main.py`
(`musics`, `vocal_map`, `game_characters`, `outside_characters`). -/
structure Catalog where
  musics : List MusicInfo
  vocal_map : VocalMap
  game_characters : List (Nat × GameCharacter)
  outside_characters : List (Nat × OutsideCharacter)
  deriving DecidableEq

/-! Path and filename builder (`src/main.py` lines 96-121). -/

/-- The filter of the generator expression
`(i for i in {lyricist: 0, composer: 0, arranger: 0} if i and i != "-")`:
Python truthiness drops the empty string, and the sentinel `"-"` is dropped. -/
def authorFilter (i : String) : Bool :=
  i != "" && i != "-"

/-- Helper for first-occurrence de-duplication: drop elements already seen. -/
def pyDedupAux (seen : List String) : List String → List String
  | [] => []
  | x :: xs => if x ∈ seen then pyDedupAux seen xs else x :: pyDedupAux (x :: seen) xs

/-- Iterating over the dict `{a: 0, b: 0, c: 0}` yields the keys de-duplicated,
keeping the first occurrence, in insertion order. -/
def pyDictKeys (xs : List String) : List String :=
  pyDedupAux [] xs

/-- The author list of the generator expression in `src/main.py` (lines 96-100 and
129-133): de-duplicate `[lyricist, composer, arranger]` via dict keys, then filter
out empty and `"-"` entries. -/
def authorsList (m : MusicInfo) : List String :=
  (pyDictKeys [m.lyricist, m.composer, m.arranger]).filter authorFilter

/-- `authors_repr` of `src/main.py`: the author list joined with `", "`. -/
def authors_repr (m : MusicInfo) : String :=
  String.intercalate ", " (authorsList m)

/-- `characters_repr` of `src/main.py` line 117: parenthesised, comma-joined
character names, or the empty string when there are none. -/
def characters_repr (chars : List String) : String :=
  if chars = [] then "" else "(" ++ String.intercalate ", " chars ++ ")"

/-- Replace every occurrence of the single character `c` by `'_'`
(one iteration of the `for repl in "?*:<>|/\\"` loop, i.e. one
`str.replace(repl, "_")` call). -/
def replChar (s : String) (c : Char) : String :=
  ⟨s.data.map (fun x => if x = c then '_' else x)⟩

/-- The forbidden filename characters `"?*:<>|/\\"` of `src/main.py` line 119. -/
def forbiddenChars : List Char :=
  ['?', '*', ':', '<', '>', '|', '/', '\\']

/-- The sanitisation loop of `src/main.py` lines 119-120: sequentially replace
each forbidden character by `'_'`. -/
def sanitize (s : String) : String :=
  forbiddenChars.foldl replChar s

/-- The raw (unsanitised) f-string
`f"{authors_repr} - {music.title} - {vocal.musicVocalType}{characters_repr}.mp3"`. -/
def rawFileName (m : MusicInfo) (v : VocalInfo) (chars : List String) : String :=
  authors_repr m ++ " - " ++ m.title ++ " - " ++ v.musicVocalType
    ++ characters_repr chars ++ ".mp3"

/-- `music_file_name` of `src/main.py` lines 118-120: the raw filename with all
forbidden characters replaced. -/
def music_file_name (m : MusicInfo) (v : VocalInfo) (chars : List String) : String :=
  sanitize (rawFileName m v chars)

/-- The destination directory `./Download/<musicVocalType>` (note: built from the
variant type verbatim, with no sanitisation). -/
def oop_dir (v : VocalInfo) : String :=
  "./Download/" ++ v.musicVocalType

/-- The destination path `./Download/<musicVocalType>/<music_file_name>`
(`oop_path` in `src/main.py` line 121). -/
def oop_path (m : MusicInfo) (v : VocalInfo) (chars : List String) : String :=
  oop_dir v ++ "/" ++ music_file_name m v chars

/-! Specification-side counterparts of the filename builder, written from the
wording of the claims; the refinement theorems compare them with the
source-derived definitions above. -/

/-- Specification reading of the author list: the de-duplicated, order-preserving
subset of `(lyricist, composer, arranger)` with empty and `"-"` entries removed
(the claim filters first, then de-duplicates). -/
def specAuthorsList (m : MusicInfo) : List String :=
  pyDictKeys ([m.lyricist, m.composer, m.arranger].filter authorFilter)

/-- Specification reading of a single character of the sanitised filename:
forbidden characters become `'_'`, all others are untouched. -/
def sanitizeChar (c : Char) : Char :=
  if c ∈ forbiddenChars then '_' else c

/-- Specification reading of sanitisation: one simultaneous character map. -/
def specSanitize (s : String) : String :=
  ⟨s.data.map sanitizeChar⟩

/-- Specification reading of the whole filename, per the words of claim C4. -/
def spec_file_name (m : MusicInfo) (v : VocalInfo) (chars : List String) : String :=
  specSanitize (String.intercalate ", " (specAuthorsList m) ++ " - " ++ m.title
    ++ " - " ++ v.musicVocalType ++ characters_repr chars ++ ".mp3")

/-! Lemmas relating the source-level filename builder to its specification. -/

theorem pyDedupAux_filter (p : String → Bool) (xs : List String) :
    ∀ seen : List String,
      (pyDedupAux seen xs).filter p = pyDedupAux (seen.filter p) (xs.filter p) := by
  induction xs with
  | nil => intro seen; rfl
  | cons x xs ih =>
    intro seen
    by_cases hx : x ∈ seen
    · by_cases hp : p x = true
      · have hxf : x ∈ seen.filter p := List.mem_filter.mpr ⟨hx, hp⟩
        simp [pyDedupAux, hx, List.filter_cons, hp, hxf, ih]
      · simp [pyDedupAux, hx, List.filter_cons, hp, ih]
    · by_cases hp : p x = true
      · have hxf : x ∉ seen.filter p := fun hm => hx (List.mem_filter.mp hm).1
        simp [pyDedupAux, hx, List.filter_cons, hp, hxf, ih]
      · have hxf : x ∉ seen.filter p := fun hm => hx (List.mem_filter.mp hm).1
        simp [pyDedupAux, hx, List.filter_cons, hp, ih]

theorem authorsList_eq_spec (m : MusicInfo) : authorsList m = specAuthorsList m := by
  unfold authorsList specAuthorsList pyDictKeys
  simpa using pyDedupAux_filter authorFilter [m.lyricist, m.composer, m.arranger] []

theorem foldl_replChar_data (L : List Char) (s : String) :
    (L.foldl replChar s).data
      = L.foldl (fun l c => l.map (fun x => if x = c then '_' else x)) s.data := by
  induction L generalizing s with
  | nil => rfl
  | cons c L ih => simpa [replChar] using ih (replChar s c)

theorem foldl_charMap_eq_map (L : List Char) (h : '_' ∉ L) (l : List Char) :
    L.foldl (fun l c => l.map (fun x => if x = c then '_' else x)) l
      = l.map (fun x => if x ∈ L then '_' else x) := by
  induction L generalizing l with
  | nil => simp
  | cons c L ih =>
    have h1 : '_' ∉ L := fun hm => h (List.mem_cons_of_mem c hm)
    rw [List.foldl_cons, ih h1, List.map_map]
    have hfun : ((fun x => if x ∈ L then '_' else x)
        ∘ fun x => if x = c then '_' else x)
        = fun x => if x ∈ (c :: L) then '_' else x := by
      funext x
      by_cases hx : x = c
      · subst hx
        simp [Function.comp, List.mem_cons]
      · simp [Function.comp, hx, List.mem_cons]
    rw [hfun]

theorem sanitize_eq_spec (s : String) : sanitize s = specSanitize s := by
  apply String.ext
  rw [specSanitize]
  show (forbiddenChars.foldl replChar s).data = _
  rw [foldl_replChar_data, foldl_charMap_eq_map forbiddenChars (by decide)]
  rfl

/-! Concrete fixtures used by several claims. -/

/-- Build a `MusicInfo` with the pipeline-relevant fields set and all bookkeeping
fields zeroed. -/
def mkMusic (id : Nat) (title lyricist composer arranger abn : String) : MusicInfo :=
  { id := id, seq := 0, releaseConditionId := 0, categories := [], title := title,
    pronunciation := "", lyricist := lyricist, composer := composer,
    arranger := arranger, dancerCount := 0, selfDancerPosition := 0,
    assetBundleName := abn, liveTalkBackgroundAssetBundleName := "",
    publishedAt := 0, liveStageId := 0, fillerSec := 0 }

/-- Build a `VocalInfo` with the pipeline-relevant fields set. -/
def mkVocal (id musicId : Nat) (vt : String) (cs : List Character) (abn : String) :
    VocalInfo :=
  { id := id, musicId := musicId, musicVocalType := vt, seq := 0,
    releaseConditionId := 0, caption := "", characters := cs,
    assetBundleName := abn }

/-- The C4 example track: title `"A/B?C"`, no authors. -/
def exMusicC4 : MusicInfo := mkMusic 1 "A/B?C" "-" "-" "-" "mb4"

/-- The C4 example variant: type `"sing"`, no characters. -/
def exVocalC4 : VocalInfo := mkVocal 1 1 "sing" [] "vb4"

/-- Claim C4 (confirmed): for every track and variant, the computed filename
equals `"<authors joined by ', '> - <title> - <variantType><(characters)?>.mp3"`
where the author list is the de-duplicated, order-preserving subset of
(lyricist, composer, arranger) with empty and `"-"` entries removed, the
parenthesised character suffix is omitted when there are no characters, and
every occurrence of `? * : < > | / \` is replaced by `_`; in particular title
`"A/B?C"` with variant type `"sing"` and no authors or characters yields
`" - A_B_C - sing.mp3"`. -/
theorem claim_C4 :
    (∀ (m : MusicInfo) (v : VocalInfo) (chars : List String),
        music_file_name m v chars = spec_file_name m v chars) ∧
      music_file_name exMusicC4 exVocalC4 [] = " - A_B_C - sing.mp3" := by
  constructor
  · intro m v chars
    unfold music_file_name spec_file_name rawFileName authors_repr
    rw [sanitize_eq_spec, authorsList_eq_spec]
  · decide

/-! Tagging engine, phase 1 (`src/main.py` lines 146-157): the EasyMP3 text
frames written to a freshly downloaded file. -/

/-- The textual ID3 tag frames written by phase 1.  A `none` field means the
frame is not written at all (as opposed to being written as an empty string). -/
structure Id3Tags where
  title : Option String
  lyricist : Option String
  composer : Option String
  arranger : Option String
  artist : List String
  performer : List String
  album : Option String
  deriving DecidableEq

/-- Phase-1 tag writing of `src/main.py` lines 146-157: title is the track
title; each of lyricist/composer/arranger is written iff its value differs from
the sentinel `"-"` (note: an empty value passes this test and is written);
artist is the resolved character names followed by the filtered de-duplicated
author list; performer is the character names alone; album is
`"Project Sekai Soundtrack - <musicVocalType>"`. -/
def phase1Tags (m : MusicInfo) (v : VocalInfo) (chars : List String) : Id3Tags :=
  { title := some m.title
    lyricist := if m.lyricist ≠ "-" then some m.lyricist else none
    composer := if m.composer ≠ "-" then some m.composer else none
    arranger := if m.arranger ≠ "-" then some m.arranger else none
    artist := chars ++ authorsList m
    performer := chars
    album := some ("Project Sekai Soundtrack - " ++ v.musicVocalType) }

/-- Specification-side phase-1 tags exactly as claim C5 words them: an author
tag is written only when the value is neither the sentinel `"-"` nor empty. -/
def claimPhase1Tags (m : MusicInfo) (v : VocalInfo) (chars : List String) : Id3Tags :=
  { title := some m.title
    lyricist := if m.lyricist ≠ "-" ∧ m.lyricist ≠ "" then some m.lyricist else none
    composer := if m.composer ≠ "-" ∧ m.composer ≠ "" then some m.composer else none
    arranger := if m.arranger ≠ "-" ∧ m.arranger ≠ "" then some m.arranger else none
    artist := chars ++ specAuthorsList m
    performer := chars
    album := some ("Project Sekai Soundtrack - " ++ v.musicVocalType) }

/-- Amended phase-1 tags: like `claimPhase1Tags` but an author tag is written
whenever the value is not the sentinel `"-"` (an empty value is written too),
which is what the code does. -/
def amendedPhase1Tags (m : MusicInfo) (v : VocalInfo) (chars : List String) : Id3Tags :=
  { title := some m.title
    lyricist := if m.lyricist = "-" then none else some m.lyricist
    composer := if m.composer = "-" then none else some m.composer
    arranger := if m.arranger = "-" then none else some m.arranger
    artist := chars ++ specAuthorsList m
    performer := chars
    album := some ("Project Sekai Soundtrack - " ++ v.musicVocalType) }

/-- The C5 example track: empty lyricist, composer `"X"`, arranger sentinel. -/
def exMusicC5 : MusicInfo := mkMusic 5 "T5" "" "X" "-" "mb5"

/-- The C5 example variant. -/
def exVocalC5 : VocalInfo := mkVocal 5 5 "sing" [] "vb5"

/-- A C5 track with authors `X`, `Y` for the artist-ordering example. -/
def exMusicC5b : MusicInfo := mkMusic 6 "T5b" "X" "Y" "-" "mb5b"

/-- Claim C5 counterexample: on a track whose lyricist is the empty string, the
code writes the lyricist frame as an empty string, while the claim requires it
to be omitted, so the phase-1 tags differ from the claim's tags. -/
theorem claim_C5_cex :
    (phase1Tags exMusicC5 exVocalC5 []).lyricist = some "" ∧
      (claimPhase1Tags exMusicC5 exVocalC5 []).lyricist = none ∧
      phase1Tags exMusicC5 exVocalC5 [] ≠ claimPhase1Tags exMusicC5 exVocalC5 [] := by
  refine ⟨by decide, by decide, by decide⟩

/-- Claim C5 as amended: for every processed variant the title tag is the track
title; each of lyricist/composer/arranger is written exactly when its value is
not the sentinel `"-"` (an empty value is written as an empty tag, not
omitted); artist is the character names followed by the de-duplicated
non-sentinel author list (characters first); performer is the character names
alone; album is `"Project Sekai Soundtrack - <variantType>"`.  In particular
characters `["Miku","Rin"]` with authors `["X","Y"]` give artist
`["Miku","Rin","X","Y"]` and performer `["Miku","Rin"]`. -/
theorem claim_C5_amended :
    (∀ (m : MusicInfo) (v : VocalInfo) (chars : List String),
        phase1Tags m v chars = amendedPhase1Tags m v chars) ∧
      (phase1Tags exMusicC5b exVocalC5 ["Miku", "Rin"]).artist
        = ["Miku", "Rin", "X", "Y"] ∧
      (phase1Tags exMusicC5b exVocalC5 ["Miku", "Rin"]).performer = ["Miku", "Rin"] := by
  refine ⟨?_, by decide, by decide⟩
  intro m v chars
  unfold phase1Tags amendedPhase1Tags
  rw [authorsList_eq_spec]
  by_cases h1 : m.lyricist = "-" <;> by_cases h2 : m.composer = "-" <;>
    by_cases h3 : m.arranger = "-" <;> simp [h1, h2, h3]

/-! Progress counters (`src/main.py` lines 228-235). -/

/-- The total of the track progress bar: `total=len(musics)`. -/
def dl_task_total (c : Catalog) : Nat :=
  c.musics.length

/-- Sum of the variant-list lengths over all entries of a vocal map. -/
def sumVM (m : VocalMap) : Nat :=
  (m.map (fun p => p.2.length)).sum

/-- The total of the variant progress bar:
`total=sum(len(v) for v in vocal_map.values())`. -/
def dl_variant_task_total (c : Catalog) : Nat :=
  sumVM c.vocal_map

/-- Whether a loaded track has at least one vocal variant in the catalog. -/
def trackHasVariants (c : Catalog) (m : MusicInfo) : Bool :=
  match dLookup c.vocal_map m.id with
  | some l => !l.isEmpty
  | none => false

/-- The track total as claim C2 words it: the number of loaded tracks that have
at least one vocal variant. -/
def claimTrackTotal (c : Catalog) : Nat :=
  (c.musics.filter (trackHasVariants c)).length

/-- The variant total as claim C2 words it: the sum of the variant counts over
exactly the loaded tracks that have variants. -/
def claimVariantTotal (c : Catalog) : Nat :=
  ((c.musics.filter (trackHasVariants c)).map
    (fun m => ((dLookup c.vocal_map m.id).getD []).length)).sum

/-- The C2 counterexample catalog: one loaded track (id 1) without variants, and
one vocal entry whose track (id 2) is not loaded. -/
def exCatC2 : Catalog :=
  { musics := [mkMusic 1 "T" "-" "-" "-" "mb"]
    vocal_map := buildVocalMap [mkVocal 7 2 "sing" [] "vb"]
    game_characters := []
    outside_characters := [] }

/-- Claim C2 counterexample: the code initialises the track total to the number
of all loaded tracks (`len(musics)`) and the variant total to the sum over all
vocal-map entries, so a track without variants and a variant of an unloaded
track both contribute, contradicting the claim. -/
theorem claim_C2_cex :
    dl_task_total exCatC2 = 1 ∧ claimTrackTotal exCatC2 = 0 ∧
      dl_variant_task_total exCatC2 = 1 ∧ claimVariantTotal exCatC2 = 0 := by
  refine ⟨by decide, by decide, by decide, by decide⟩

theorem sumVM_setdefaultAppend (m : VocalMap) (k : Nat) (v : VocalInfo) :
    sumVM (setdefaultAppend m k v) = sumVM m + 1 := by
  induction m with
  | nil => simp [setdefaultAppend, sumVM]
  | cons p rest ih =>
    obtain ⟨k2, l⟩ := p
    by_cases h : k2 = k
    · simp [setdefaultAppend, h, sumVM]
      omega
    · simp [setdefaultAppend, h, sumVM] at ih ⊢
      omega

theorem sumVM_buildVocalMapFrom (vs : List VocalInfo) :
    ∀ m : VocalMap, sumVM (buildVocalMapFrom m vs) = sumVM m + vs.length := by
  induction vs with
  | nil => intro m; simp [buildVocalMapFrom]
  | cons v vs ih =>
    intro m
    rw [buildVocalMapFrom, ih, sumVM_setdefaultAppend]
    simp
    omega

/-- Claim C2 as amended: before any worker is scheduled, the track counter total
equals the number of all loaded tracks (tracks without variants included), and
the variant counter total equals the number of all loaded vocal-variant records
(variants of unloaded tracks included). -/
theorem claim_C2_amended :
    ∀ (ms : List MusicInfo) (vs : List VocalInfo)
      (g : List (Nat × GameCharacter)) (o : List (Nat × OutsideCharacter)),
      dl_task_total ⟨ms, buildVocalMap vs, g, o⟩ = ms.length ∧
        dl_variant_task_total ⟨ms, buildVocalMap vs, g, o⟩ = vs.length := by
  intro ms vs g o
  refine ⟨rfl, ?_⟩
  show sumVM (buildVocalMap vs) = vs.length
  rw [buildVocalMap, sumVM_buildVocalMapFrom]
  simp [sumVM]

/-! Reference loader (`src/main.py` lines 180-226): the
`while not outside_characters` retry loop around the four fetch+parse steps. -/

/-- The observable outcome of one iteration of the loading loop.  The four steps
run in order (tracks, vocals, game characters, guest characters); an exception
anywhere is swallowed by `contextlib.suppress` and the loop retries.  Each
constructor records how far the attempt got and what data the completed steps
produced; a failure inside the vocal step can leave a parsed prefix behind,
because the vocal records are appended to `vocal_map` one by one. -/
inductive AttemptResult where
  | failAtMusics
  | failDuringVocals (ms : List MusicInfo) (fetched : List VocalInfo)
  | failAtGameChars (ms : List MusicInfo) (vs : List VocalInfo)
  | failAtOutsideChars (ms : List MusicInfo) (vs : List VocalInfo)
      (gs : List GameCharacter)
  | success (ms : List MusicInfo) (vs : List VocalInfo) (gs : List GameCharacter)
      (os : List OutsideCharacter)
  deriving DecidableEq

/-- Effect of one loading attempt on the module-level state.  `musics`,
`game_characters` and `outside_characters` are wholesale reassignments, but the
vocal step mutates the existing `vocal_map` in place via
`setdefault(...).append(...)` — the map is never cleared between attempts. -/
def applyAttempt (s : Catalog) : AttemptResult → Catalog
  | .failAtMusics => s
  | .failDuringVocals ms fetched =>
      { s with musics := ms, vocal_map := buildVocalMapFrom s.vocal_map fetched }
  | .failAtGameChars ms vs =>
      { s with musics := ms, vocal_map := buildVocalMapFrom s.vocal_map vs }
  | .failAtOutsideChars ms vs gs =>
      { s with musics := ms, vocal_map := buildVocalMapFrom s.vocal_map vs,
               game_characters := dictById GameCharacter.id gs }
  | .success ms vs gs os =>
      { musics := ms, vocal_map := buildVocalMapFrom s.vocal_map vs,
        game_characters := dictById GameCharacter.id gs,
        outside_characters := dictById OutsideCharacter.id os }

/-- The module-level state before the first loading attempt. -/
def initialState : Catalog :=
  { musics := [], vocal_map := [], game_characters := [], outside_characters := [] }

/-- A run of the loading loop: fold the attempts over the state. -/
def runLoader (s : Catalog) (attempts : List AttemptResult) : Catalog :=
  attempts.foldl applyAttempt s

/-- The C1 track fixture. -/
def exMusicC1 : MusicInfo := mkMusic 10 "Song" "-" "-" "-" "mb1"

/-- The C1 vocal fixture, belonging to track 10. -/
def exVocalC1 : VocalInfo := mkVocal 1 10 "sing" [] "vb1"

/-- The C1 guest-character fixture (makes the final attempt terminate the loop). -/
def exOutsideC1 : OutsideCharacter := ⟨1, 1, "Guest"⟩

/-- Claim C1 (code bug): a loading attempt that succeeds through the vocal step
and then fails leaves its vocal records in `vocal_map` (the map is never reset),
so after a subsequent fully successful pass the map holds every such vocal
twice; the resulting catalog differs from the one a single successful pass
builds, contradicting the documented atomic-retry behaviour. -/
theorem claim_C1_bug :
    (runLoader initialState
        [AttemptResult.failAtGameChars [exMusicC1] [exVocalC1],
         AttemptResult.success [exMusicC1] [exVocalC1] [] [exOutsideC1]]).vocal_map
      = [(10, [exVocalC1, exVocalC1])] ∧
    (runLoader initialState
        [AttemptResult.success [exMusicC1] [exVocalC1] [] [exOutsideC1]]).vocal_map
      = [(10, [exVocalC1])] ∧
    (runLoader initialState
        [AttemptResult.failAtGameChars [exMusicC1] [exVocalC1],
         AttemptResult.success [exMusicC1] [exVocalC1] [] [exOutsideC1]]).vocal_map
      ≠ (runLoader initialState
        [AttemptResult.success [exMusicC1] [exVocalC1] [] [exOutsideC1]]).vocal_map := by
  refine ⟨by decide, by decide, by decide⟩

/-! Track worker (`fetch_music`, `src/main.py` lines 90-173) and orchestrator
(`main`, lines 243-249), modelled as pure functions that return the trace of
side-effecting steps together with the resulting file-system state. -/

/-- The contents the pipeline can leave behind at a destination path.
`open(path, "wb")` writes the audio bytes (truncating anything older), the
EasyMP3 save adds the text frames, the ID3 save adds the cover frame. -/
structure FileState where
  hasBytes : Bool
  hasTextTags : Bool
  hasCoverTag : Bool
  deriving DecidableEq

/-- One observable side-effecting step of the worker. -/
inductive Step where
  | mkdirStep (dir : String)
  | coverFetch (url : String)
  | audioFetch (url : String)
  | writeBytes (path : String)
  | writeTextTags (path : String) (tags : Id3Tags)
  | writeCoverTag (path : String)
  | signalVariant
  | signalTrack
  deriving DecidableEq

/-- The output directory tree: which paths hold a file, and in what state. -/
abbrev Disk := List (String × FileState)

/-- The file at a path, if any. -/
def fileAt : Disk → String → Option FileState
  | [], _ => none
  | (q, f) :: rest, p => if q = p then some f else fileAt rest p

/-- `oop_path.exists()` of `src/main.py` line 123. -/
def pathExists (d : Disk) (p : String) : Bool :=
  (fileAt d p).isSome

/-- Create or overwrite the file at a path. -/
def setFile : Disk → String → FileState → Disk
  | [], p, f => [(p, f)]
  | (q, g) :: rest, p, f =>
    if q = p then (q, f) :: rest else (q, g) :: setFile rest p f

/-- Update the file at a path in place (no effect when the path is absent). -/
def mapFile : Disk → String → (FileState → FileState) → Disk
  | [], _, _ => []
  | (q, g) :: rest, p, h =>
    if q = p then (q, h g) :: rest else (q, g) :: mapFile rest p h

/-- Effect of one step on the disk.  Fetches, directory creation and progress
signals do not change any file. -/
def applyStep (d : Disk) : Step → Disk
  | .writeBytes p => setFile d p ⟨true, false, false⟩
  | .writeTextTags p _ => mapFile d p (fun f => { f with hasTextTags := true })
  | .writeCoverTag p => mapFile d p (fun f => { f with hasCoverTag := true })
  | _ => d

/-- Effect of a step sequence on the disk, applied left to right. -/
def applySteps (d : Disk) (steps : List Step) : Disk :=
  steps.foldl applyStep d

/-- The cover-art URL of `src/main.py` line 106. -/
def coverUrl (m : MusicInfo) : String :=
  "https://storage.sekai.best/sekai-assets/music/jacket/" ++ m.assetBundleName
    ++ "_rip/" ++ m.assetBundleName ++ ".png"

/-- The audio URL of `src/main.py` line 138. -/
def audioUrl (v : VocalInfo) : String :=
  "https://storage.sekai.best/sekai-assets/music/long/" ++ v.assetBundleName
    ++ "_rip/" ++ v.assetBundleName ++ ".mp3"

/-- Character-name resolution for one reference (`src/main.py` lines 112-114):
an internal reference is looked up in `game_characters` and rendered with
`full_name`, anything else in `outside_characters`.  `none` models the
uncaught `KeyError` raised when the id is absent from its dict. -/
def resolveChar (cat : Catalog) (c : Character) : Option String :=
  if c.characterType = "game_character" then
    (dLookup cat.game_characters c.characterId).map GameCharacter.full_name
  else
    (dLookup cat.outside_characters c.characterId).map OutsideCharacter.name

/-- Resolution of a variant's whole character list, in order; fails as soon as
one reference fails. -/
def resolveChars (cat : Catalog) : List Character → Option (List String)
  | [] => some []
  | c :: cs =>
    match resolveChar cat c with
    | none => none
    | some n =>
      match resolveChars cat cs with
      | none => none
      | some ns => some (n :: ns)

/-- The steps of the skip branch (`src/main.py` lines 122-126): the parent
directory is created, the existing file is left alone, and the same
`on_variant_complete` progress callback as a completion is invoked. -/
def skipSteps (v : VocalInfo) : List Step :=
  [Step.mkdirStep (oop_dir v), Step.signalVariant]

/-- The steps of the download branch (`src/main.py` lines 122 and 127-171):
create the directory, fetch the audio (the retry loop always eventually
succeeds), write the bytes, write the phase-1 text frames, reopen and write the
cover frame, then signal the variant. -/
def freshSteps (m : MusicInfo) (v : VocalInfo) (chars : List String) : List Step :=
  [Step.mkdirStep (oop_dir v), Step.audioFetch (audioUrl v),
   Step.writeBytes (oop_path m v chars),
   Step.writeTextTags (oop_path m v chars) (phase1Tags m v chars),
   Step.writeCoverTag (oop_path m v chars), Step.signalVariant]

/-- The per-variant `for` loop of `fetch_music` (`src/main.py` lines 110-171).
For each vocal, the character names are resolved first (an absent id raises
`KeyError`, modelled as `Except.error "KeyError"`), then the destination path
decides between the skip branch and the download branch. -/
def runVocals (cat : Catalog) (m : MusicInfo) :
    List VocalInfo → Disk → Except String (Disk × List Step)
  | [], d => .ok (d, [])
  | v :: vs, d =>
    match resolveChars cat v.characters with
    | none => .error "KeyError"
    | some chars =>
      if pathExists d (oop_path m v chars) then
        match runVocals cat m vs d with
        | .error e => .error e
        | .ok (d2, steps) => .ok (d2, skipSteps v ++ steps)
      else
        match runVocals cat m vs (applySteps d (freshSteps m v chars)) with
        | .error e => .error e
        | .ok (d2, steps) => .ok (d2, freshSteps m v chars ++ steps)

/-- One track worker (`fetch_music`): fetch the cover once, process the vocals
sequentially, then signal track completion.  An uncaught exception from the
vocal loop propagates out of the worker. -/
def fetch_music (cat : Catalog) (m : MusicInfo) (vs : List VocalInfo) (d : Disk) :
    Except String (Disk × List Step) :=
  match runVocals cat m vs d with
  | .error e => .error e
  | .ok (d2, steps) =>
    .ok (d2, Step.coverFetch (coverUrl m) :: (steps ++ [Step.signalTrack]))

/-- The tracks the orchestrator schedules (`src/main.py` lines 245-247):
`for music in musics if music.id in vocal_map`. -/
def scheduled (cat : Catalog) : List MusicInfo :=
  cat.musics.filter (fun m => (dLookup cat.vocal_map m.id).isSome)

/-- The workers of `asyncio.gather`, linearised: each scheduled track is passed
`vocal_map[music.id]`, and the traces are concatenated. -/
def runTracks (cat : Catalog) : List MusicInfo → Disk → Except String (Disk × List Step)
  | [], d => .ok (d, [])
  | m :: ms, d =>
    match fetch_music cat m ((dLookup cat.vocal_map m.id).getD []) d with
    | .error e => .error e
    | .ok (d2, steps) =>
      match runTracks cat ms d2 with
      | .error e => .error e
      | .ok (d3, steps2) => .ok (d3, steps ++ steps2)

/-- The whole pipeline after loading: run all scheduled track workers. -/
def runPipeline (cat : Catalog) (d : Disk) : Except String (Disk × List Step) :=
  runTracks cat (scheduled cat) d

/-- Whether a step is a network fetch (cover or audio). -/
def stepIsNetworkFetch : Step → Bool
  | .coverFetch _ => true
  | .audioFetch _ => true
  | _ => false

/-- Whether a step is the cover fetch. -/
def stepIsCoverFetch : Step → Bool
  | .coverFetch _ => true
  | _ => false

/-- Whether a step is the audio fetch. -/
def stepIsAudioFetch : Step → Bool
  | .audioFetch _ => true
  | _ => false

/-- Whether a step writes the audio bytes to disk. -/
def stepIsFileWrite : Step → Bool
  | .writeBytes _ => true
  | _ => false

/-- Whether a step writes tags (text frames or cover frame). -/
def stepIsTagWrite : Step → Bool
  | .writeTextTags _ _ => true
  | .writeCoverTag _ => true
  | _ => false

/-- Whether a step is the per-variant progress signal. -/
def stepIsVariantSignal : Step → Bool
  | .signalVariant => true
  | _ => false

/-- A step that neither fetches anything nor touches any file: directory
creation and progress signals only. -/
def stepIsQuiet : Step → Bool
  | .mkdirStep _ => true
  | .signalVariant => true
  | .signalTrack => true
  | _ => false

/-- A step that performs no audio fetch, no byte write and no tag write
(cover fetches are allowed). -/
def stepIsPassive (s : Step) : Bool :=
  !(stepIsAudioFetch s || stepIsFileWrite s || stepIsTagWrite s)

/-! Claim C6: the skip-on-exists frame condition. -/

/-- Claim C6 (confirmed): when a variant's destination path already exists at
the moment it is processed, the worker performs no fetch, no file write and no
tag write, leaves the disk unchanged for the remaining variants (the existing
file included), emits exactly one variant progress signal (the same
`on_variant_complete` callback as a completion), and continues with the next
variant. -/
theorem claim_C6 (cat : Catalog) (m : MusicInfo) (v : VocalInfo) (vs : List VocalInfo)
    (d : Disk) (chars : List String)
    (hres : resolveChars cat v.characters = some chars)
    (hex : pathExists d (oop_path m v chars) = true) :
    runVocals cat m (v :: vs) d
        = (runVocals cat m vs d).map (fun r => (r.1, skipSteps v ++ r.2)) ∧
      (skipSteps v).countP stepIsVariantSignal = 1 ∧
      (skipSteps v).all
        (fun s => !(stepIsNetworkFetch s || stepIsFileWrite s || stepIsTagWrite s))
        = true := by
  refine ⟨?_, rfl, rfl⟩
  simp only [runVocals, hres, hex, if_true]
  cases h : runVocals cat m vs d <;> simp [Except.map]

/-- The C6 fixtures: a variant with no characters whose file is already present. -/
def exCatC6 : Catalog := ⟨[], [], [], []⟩

/-- The C6 example track. -/
def exMusicC6 : MusicInfo := mkMusic 3 "T6" "-" "-" "-" "mb6"

/-- The C6 example variant. -/
def exVocalC6 : VocalInfo := mkVocal 6 3 "sing" [] "vb6"

/-- A disk already holding the C6 variant's destination file. -/
def exDiskC6 : Disk := [(oop_path exMusicC6 exVocalC6 [], ⟨true, true, true⟩)]

/-- Witness for claim C6 at a concrete catalog, track, variant and disk. -/
theorem claim_C6_witness :
    resolveChars exCatC6 exVocalC6.characters = some [] ∧
      pathExists exDiskC6 (oop_path exMusicC6 exVocalC6 []) = true ∧
      (runVocals exCatC6 exMusicC6 [exVocalC6] exDiskC6
          = (runVocals exCatC6 exMusicC6 [] exDiskC6).map
              (fun r => (r.1, skipSteps exVocalC6 ++ r.2)) ∧
        (skipSteps exVocalC6).countP stepIsVariantSignal = 1 ∧
        (skipSteps exVocalC6).all
          (fun s => !(stepIsNetworkFetch s || stepIsFileWrite s || stepIsTagWrite s))
          = true) :=
  ⟨rfl, by decide,
    claim_C6 exCatC6 exMusicC6 exVocalC6 [] exDiskC6 [] rfl (by decide)⟩

/-! Claim C7: reference-integrity failures are fatal. -/

theorem resolveChars_eq_none (cat : Catalog) {c : Character} {cs : List Character}
    (hc : c ∈ cs) (h : resolveChar cat c = none) :
    resolveChars cat cs = none := by
  induction cs with
  | nil => cases hc
  | cons w ws ih =>
    rcases List.mem_cons.mp hc with h1 | h1
    · subst h1; simp [resolveChars, h]
    · cases hw : resolveChar cat w <;> simp [resolveChars, hw, ih h1]

theorem runVocals_error (cat : Catalog) (m : MusicInfo) {v : VocalInfo}
    (hnone : resolveChars cat v.characters = none) :
    ∀ (vs : List VocalInfo), v ∈ vs → ∀ d : Disk,
      runVocals cat m vs d = .error "KeyError" := by
  intro vs
  induction vs with
  | nil => intro hv; cases hv
  | cons w ws ih =>
    intro hv d
    rcases List.mem_cons.mp hv with h1 | h1
    · subst h1; simp [runVocals, hnone]
    · cases hw : resolveChars cat w.characters with
      | none => simp [runVocals, hw]
      | some chars =>
        by_cases hex : pathExists d (oop_path m w chars) = true
        · simp [runVocals, hw, hex, ih h1]
        · simp [runVocals, hw, hex, ih h1]

/-- Claim C7 (confirmed): if any scheduled variant contains a character
reference whose identifier is absent from its catalog (the internal-character
dict for the `"game_character"` discriminant, the guest-character dict
otherwise), name resolution raises a `KeyError` that nothing catches or
retries, and the whole track worker fails with it. -/
theorem claim_C7 (cat : Catalog) (m : MusicInfo) (vs : List VocalInfo) (d : Disk)
    (v : VocalInfo) (c : Character) (hv : v ∈ vs) (hc : c ∈ v.characters)
    (habs : (c.characterType = "game_character"
              ∧ dLookup cat.game_characters c.characterId = none)
            ∨ (c.characterType ≠ "game_character"
              ∧ dLookup cat.outside_characters c.characterId = none)) :
    fetch_music cat m vs d = .error "KeyError" := by
  have h1 : resolveChar cat c = none := by
    rcases habs with ⟨ht, hl⟩ | ⟨ht, hl⟩ <;> simp [resolveChar, ht, hl]
  have h3 := runVocals_error cat m (resolveChars_eq_none cat hc h1) vs hv d
  simp [fetch_music, h3]

/-- The C7 character reference: internal discriminant, id 99, absent below. -/
def exCharC7 : Character := ⟨1, 10, 1, "game_character", 99, 0⟩

/-- The C7 variant carrying the dangling reference. -/
def exVocalC7 : VocalInfo := mkVocal 2 10 "sing" [exCharC7] "vb7"

/-- The C7 track. -/
def exMusicC7 : MusicInfo := mkMusic 10 "S7" "-" "-" "-" "mb7"

/-- The C7 catalog: its internal-character dict is empty, so id 99 is absent. -/
def exCatC7 : Catalog := ⟨[exMusicC7], buildVocalMap [exVocalC7], [], []⟩

/-- Witness for claim C7 at a concrete catalog with a dangling reference. -/
theorem claim_C7_witness :
    exVocalC7 ∈ [exVocalC7] ∧ exCharC7 ∈ exVocalC7.characters ∧
      dLookup exCatC7.game_characters exCharC7.characterId = none ∧
      fetch_music exCatC7 exMusicC7 [exVocalC7] [] = Except.error "KeyError" :=
  ⟨by decide, by decide, rfl,
    claim_C7 exCatC7 exMusicC7 [exVocalC7] [] exVocalC7 exCharC7 (by decide)
      (by decide) (Or.inl ⟨rfl, rfl⟩)⟩

/-! Claim C8: bytes are written before tags, and the path-only dedupe check
permanently skips a file left half-tagged by an interrupted run. -/

theorem fileAt_setFile (d : Disk) (p : String) (f : FileState) :
    fileAt (setFile d p f) p = some f := by
  induction d with
  | nil => simp [setFile, fileAt]
  | cons q rest ih =>
    obtain ⟨q1, g⟩ := q
    by_cases h : q1 = p
    · simp [setFile, h, fileAt]
    · simp [setFile, h, fileAt, ih]

/-- Claim C8 (confirmed): for a processed (non-skipped) variant the audio bytes
are written to the destination path strictly before any tag write; stopping the
run right after the byte write (the first three steps) leaves a file at the
path with no tags at all, and because the dedupe check tests only path
existence, a subsequent run skips the variant — emitting only the skip steps,
which contain no tag write — so its tags are never completed. -/
theorem claim_C8 (cat : Catalog) (m : MusicInfo) (v : VocalInfo) (d : Disk)
    (chars : List String)
    (hres : resolveChars cat v.characters = some chars)
    (hnew : pathExists d (oop_path m v chars) = false) :
    ((freshSteps m v chars).take 3
        = [Step.mkdirStep (oop_dir v), Step.audioFetch (audioUrl v),
           Step.writeBytes (oop_path m v chars)] ∧
      ((freshSteps m v chars).take 3).all (fun s => !stepIsTagWrite s) = true) ∧
    fileAt (applySteps d ((freshSteps m v chars).take 3)) (oop_path m v chars)
        = some ⟨true, false, false⟩ ∧
    runVocals cat m [v] (applySteps d ((freshSteps m v chars).take 3))
        = .ok (applySteps d ((freshSteps m v chars).take 3), skipSteps v) ∧
    (skipSteps v).all (fun s => !stepIsTagWrite s) = true := by
  have hdisk : applySteps d ((freshSteps m v chars).take 3)
      = setFile d (oop_path m v chars) ⟨true, false, false⟩ := rfl
  have hfile : fileAt (applySteps d ((freshSteps m v chars).take 3))
      (oop_path m v chars) = some ⟨true, false, false⟩ := by
    rw [hdisk]; exact fileAt_setFile d _ _
  refine ⟨⟨rfl, rfl⟩, hfile, ?_, rfl⟩
  have hex : pathExists (applySteps d ((freshSteps m v chars).take 3))
      (oop_path m v chars) = true := by
    rw [pathExists, hfile]; rfl
  simp [runVocals, hres, hex]

/-- The C8 catalog (empty dicts are fine: the variant has no characters). -/
def exCatC8 : Catalog := ⟨[], [], [], []⟩

/-- The C8 track. -/
def exMusicC8 : MusicInfo := mkMusic 8 "T8" "-" "-" "-" "mb8"

/-- The C8 variant. -/
def exVocalC8 : VocalInfo := mkVocal 8 8 "sing" [] "vb8"

/-- Witness for claim C8: interrupting a fresh download of the C8 variant on an
empty disk right after the byte write leaves an untagged file at the path. -/
theorem claim_C8_witness :
    resolveChars exCatC8 exVocalC8.characters = some [] ∧
      pathExists ([] : Disk) (oop_path exMusicC8 exVocalC8 []) = false ∧
      fileAt (applySteps [] ((freshSteps exMusicC8 exVocalC8 []).take 3))
          (oop_path exMusicC8 exVocalC8 []) = some ⟨true, false, false⟩ :=
  ⟨rfl, rfl, (claim_C8 exCatC8 exMusicC8 exVocalC8 [] [] rfl rfl).2.1⟩

/-! Claim C9: every vocal-map entry built by a successful pass is non-empty. -/

theorem dLookup_mem {α : Type} (m : List (Nat × α)) (k : Nat) (x : α)
    (h : dLookup m k = some x) : (k, x) ∈ m := by
  induction m with
  | nil => simp [dLookup] at h
  | cons p rest ih =>
    obtain ⟨k2, v⟩ := p
    by_cases hk : k2 = k
    · subst hk
      simp [dLookup] at h
      subst h
      exact List.mem_cons_self _ _
    · simp [dLookup, hk] at h
      exact List.mem_cons_of_mem _ (ih h)

theorem setdefaultAppend_nonempty (m : VocalMap) (k : Nat) (v : VocalInfo)
    (H : ∀ p ∈ m, p.2 ≠ []) : ∀ p ∈ setdefaultAppend m k v, p.2 ≠ [] := by
  induction m with
  | nil =>
    intro p hp
    simp [setdefaultAppend] at hp
    subst hp
    simp
  | cons q rest ih =>
    obtain ⟨k2, l⟩ := q
    intro p hp
    by_cases hk : k2 = k
    · simp only [setdefaultAppend, hk, if_pos, List.mem_cons] at hp
      rcases hp with hp | hp
      · subst hp; simp
      · exact H p (List.mem_cons_of_mem _ hp)
    · simp only [setdefaultAppend, hk, if_neg, ite_false, List.mem_cons] at hp
      rcases hp with hp | hp
      · subst hp; exact H (k2, l) (List.mem_cons_self _ _)
      · exact ih (fun q hq => H q (List.mem_cons_of_mem _ hq)) p hp

theorem buildVocalMapFrom_nonempty (vs : List VocalInfo) :
    ∀ m : VocalMap, (∀ p ∈ m, p.2 ≠ []) →
      ∀ p ∈ buildVocalMapFrom m vs, p.2 ≠ [] := by
  induction vs with
  | nil => intro m H p hp; exact H p hp
  | cons v vs ih =>
    intro m H p hp
    exact ih _ (setdefaultAppend_nonempty m v.musicId v H) p hp

/-- Claim C9 (confirmed): in a vocal map built by one loading pass, every key
maps to a non-empty variant list — `setdefault(k, []).append(v)` never leaves
an empty list behind — so every scheduled track worker (one per loaded track
whose id is a key of the map) receives at least one variant. -/
theorem claim_C9 :
    (∀ (vs : List VocalInfo) (k : Nat) (l : List VocalInfo),
        dLookup (buildVocalMap vs) k = some l → l ≠ []) ∧
    (∀ (ms : List MusicInfo) (vs : List VocalInfo)
        (g : List (Nat × GameCharacter)) (o : List (Nat × OutsideCharacter))
        (m : MusicInfo),
        m ∈ scheduled ⟨ms, buildVocalMap vs, g, o⟩ →
        (dLookup (buildVocalMap vs) m.id).getD [] ≠ []) := by
  have key : ∀ (vs : List VocalInfo) (k : Nat) (l : List VocalInfo),
      dLookup (buildVocalMap vs) k = some l → l ≠ [] := by
    intro vs k l h
    exact buildVocalMapFrom_nonempty vs [] (by simp) (k, l) (dLookup_mem _ _ _ h)
  refine ⟨key, ?_⟩
  intro ms vs g o m hm
  have hsome := (List.mem_filter.mp hm).2
  rcases Option.isSome_iff_exists.mp hsome with ⟨l, hl⟩
  rw [hl]
  simpa using key vs m.id l hl

/-- The C9 vocal fixture, belonging to track 20. -/
def exVocalC9 : VocalInfo := mkVocal 9 20 "sing" [] "vb9"

/-- Witness for claim C9 at a concrete one-vocal map. -/
theorem claim_C9_witness :
    dLookup (buildVocalMap [exVocalC9]) 20 = some [exVocalC9] ∧
      ([exVocalC9] : List VocalInfo) ≠ [] :=
  ⟨by decide, claim_C9.1 [exVocalC9] 20 [exVocalC9] (by decide)⟩

/-! Claim C10: sanitisation covers only the filename component, not the
variant-type directory component. -/

theorem string_data_append (s t : String) : (s ++ t).data = s.data ++ t.data := rfl

theorem not_mem_specSanitize_data {c : Char} (hc : c ∈ forbiddenChars)
    (s : String) : c ∉ (specSanitize s).data := by
  intro hmem
  have hmem2 : c ∈ s.data.map sanitizeChar := hmem
  rcases List.mem_map.mp hmem2 with ⟨x, hx, hsx⟩
  by_cases hxf : x ∈ forbiddenChars
  · rw [sanitizeChar, if_pos hxf] at hsx
    subst hsx
    exact absurd hc (by decide)
  · rw [sanitizeChar, if_neg hxf] at hsx
    subst hsx
    exact hxf hc

/-- Claim C10 (confirmed): forbidden-character replacement is applied only to
the filename component of the destination path; the directory component is the
variant-type string verbatim, so any forbidden character occurring in the
variant-type tag reaches the path unsanitised, even though it can never occur
in the sanitised filename component. -/
theorem claim_C10 (m : MusicInfo) (v : VocalInfo) (chars : List String) (c : Char)
    (hc : c ∈ forbiddenChars) (hv : c ∈ v.musicVocalType.data) :
    c ∈ (oop_path m v chars).data ∧ c ∉ (music_file_name m v chars).data := by
  constructor
  · rw [oop_path, oop_dir, string_data_append, string_data_append,
      string_data_append]
    simp only [List.mem_append]
    exact Or.inl (Or.inl (Or.inr hv))
  · rw [music_file_name, sanitize_eq_spec]
    exact not_mem_specSanitize_data hc _

/-- The C10 track. -/
def exMusicC10 : MusicInfo := mkMusic 11 "T10" "-" "-" "-" "mbA"

/-- The C10 variant, whose variant-type tag contains a forbidden `'/'`. -/
def exVocalC10 : VocalInfo := mkVocal 11 11 "a/b" [] "vbA"

/-- Witness for claim C10: the `'/'` of variant type `"a/b"` reaches the path
while the sanitised filename contains no `'/'` at all. -/
theorem claim_C10_witness :
    ('/' ∈ forbiddenChars ∧ '/' ∈ (exVocalC10.musicVocalType).data) ∧
      ('/' ∈ (oop_path exMusicC10 exVocalC10 []).data ∧
        '/' ∉ (music_file_name exMusicC10 exVocalC10 []).data) :=
  ⟨⟨by decide, by decide⟩,
    claim_C10 exMusicC10 exVocalC10 [] '/' (by decide) (by decide)⟩

/-! Claim C3: idempotence of a second run. -/

theorem stepIsQuiet_passive (s : Step) (h : stepIsQuiet s = true) :
    stepIsPassive s = true := by
  cases s <;> simp_all [stepIsQuiet, stepIsPassive, stepIsAudioFetch,
    stepIsFileWrite, stepIsTagWrite]

theorem stepIsQuiet_not_cover (s : Step) (h : stepIsQuiet s = true) :
    stepIsCoverFetch s = false := by
  cases s <;> simp_all [stepIsQuiet, stepIsCoverFetch]

/-- When every variant of the list resolves and already has its file on disk,
the vocal loop performs only quiet steps (directory creation and progress
signals) and leaves the disk unchanged. -/
theorem runVocals_allskip (cat : Catalog) (m : MusicInfo) (vs : List VocalInfo) :
    ∀ d : Disk,
      (∀ v ∈ vs, (resolveChars cat v.characters).isSome = true ∧
        pathExists d (oop_path m v ((resolveChars cat v.characters).getD []))
          = true) →
      ∃ steps, runVocals cat m vs d = .ok (d, steps)
        ∧ steps.all stepIsQuiet = true := by
  induction vs with
  | nil => intro d H; exact ⟨[], rfl, rfl⟩
  | cons v vs ih =>
    intro d H
    obtain ⟨hsome, hex⟩ := H v (List.mem_cons_self _ _)
    rcases Option.isSome_iff_exists.mp hsome with ⟨chars, hres⟩
    have hex2 : pathExists d (oop_path m v chars) = true := by
      simpa [hres] using hex
    obtain ⟨steps, hrun, hquiet⟩ := ih d (fun w hw => H w (List.mem_cons_of_mem _ hw))
    refine ⟨skipSteps v ++ steps, ?_, ?_⟩
    · simp [runVocals, hres, hex2, hrun]
    · simp [List.all_append, hquiet, skipSteps, stepIsQuiet]

/-- When every variant of the list is already on disk, a track worker performs
exactly one cover fetch and otherwise only quiet steps, and leaves the disk
unchanged. -/
theorem fetch_music_allskip (cat : Catalog) (m : MusicInfo) (vs : List VocalInfo)
    (d : Disk)
    (H : ∀ v ∈ vs, (resolveChars cat v.characters).isSome = true ∧
      pathExists d (oop_path m v ((resolveChars cat v.characters).getD []))
        = true) :
    ∃ steps, fetch_music cat m vs d = .ok (d, steps)
      ∧ steps.all stepIsPassive = true
      ∧ steps.countP stepIsCoverFetch = 1 := by
  obtain ⟨steps, hrun, hquiet⟩ := runVocals_allskip cat m vs d H
  have hpass : steps.all stepIsPassive = true :=
    List.all_eq_true.mpr fun s hs =>
      stepIsQuiet_passive s (List.all_eq_true.mp hquiet s hs)
  have hzero : steps.countP stepIsCoverFetch = 0 :=
    List.countP_eq_zero.mpr fun s hs => by
      rw [stepIsQuiet_not_cover s (List.all_eq_true.mp hquiet s hs)]
      exact Bool.false_ne_true
  refine ⟨Step.coverFetch (coverUrl m) :: (steps ++ [Step.signalTrack]), ?_, ?_, ?_⟩
  · simp [fetch_music, hrun]
  · simp [List.all_cons, List.all_append, hpass, stepIsPassive, stepIsAudioFetch,
      stepIsFileWrite, stepIsTagWrite]
  · simp [List.countP_cons, List.countP_append, hzero, stepIsCoverFetch]

/-- When every variant of every listed track is already on disk, the
orchestrated workers perform one cover fetch per track, no audio fetch, no file
write and no tag write, and leave the disk unchanged. -/
theorem runTracks_allskip (cat : Catalog) (d : Disk) :
    ∀ ms : List MusicInfo,
      (∀ m ∈ ms, ∀ v ∈ (dLookup cat.vocal_map m.id).getD [],
        (resolveChars cat v.characters).isSome = true ∧
          pathExists d (oop_path m v ((resolveChars cat v.characters).getD []))
            = true) →
      ∃ steps, runTracks cat ms d = .ok (d, steps)
        ∧ steps.all stepIsPassive = true
        ∧ steps.countP stepIsCoverFetch = ms.length := by
  intro ms
  induction ms with
  | nil => intro H; exact ⟨[], rfl, rfl, rfl⟩
  | cons m ms ih =>
    intro H
    obtain ⟨s1, h1, hp1, hc1⟩ :=
      fetch_music_allskip cat m ((dLookup cat.vocal_map m.id).getD []) d
        (H m (List.mem_cons_self _ _))
    obtain ⟨s2, h2, hp2, hc2⟩ := ih (fun w hw => H w (List.mem_cons_of_mem _ hw))
    refine ⟨s1 ++ s2, ?_, ?_, ?_⟩
    · simp [runTracks, h1, h2]
    · simp [List.all_append, hp1, hp2]
    · simp [List.countP_append, hc1, hc2]
      omega

/-- Claim C3 as amended: when the destination path of every variant of every
scheduled track already exists, a run performs zero audio fetches, zero file
writes and zero tag writes and leaves the file set identical — but it still
performs exactly one cover-art network fetch per scheduled track, so the run
is not free of network fetches. -/
theorem claim_C3_amended (cat : Catalog) (d : Disk)
    (H : ∀ m ∈ scheduled cat, ∀ v ∈ (dLookup cat.vocal_map m.id).getD [],
      (resolveChars cat v.characters).isSome = true ∧
        pathExists d (oop_path m v ((resolveChars cat v.characters).getD []))
          = true) :
    ∃ steps, runPipeline cat d = .ok (d, steps)
      ∧ steps.all stepIsPassive = true
      ∧ steps.countP stepIsCoverFetch = (scheduled cat).length :=
  runTracks_allskip cat d (scheduled cat) H

/-- The C3 track. -/
def exMusicC3 : MusicInfo := mkMusic 30 "T3" "-" "-" "-" "mb3"

/-- The C3 variant. -/
def exVocalC3 : VocalInfo := mkVocal 30 30 "sing" [] "vb3"

/-- The C3 catalog: one scheduled track with one variant. -/
def exCatC3 : Catalog := ⟨[exMusicC3], buildVocalMap [exVocalC3], [], []⟩

/-- A disk on which the C3 variant's destination file already exists. -/
def exDiskC3 : Disk := [(oop_path exMusicC3 exVocalC3 [], ⟨true, true, true⟩)]

/-- Claim C3 counterexample: with every destination path already on disk, the
pipeline still performs a network fetch — the cover fetch happens once per
scheduled track before the per-variant existence check — so the claimed "zero
network fetches" is false (the file set is unchanged, though). -/
theorem claim_C3_cex :
    pathExists exDiskC3 (oop_path exMusicC3 exVocalC3 []) = true ∧
      runPipeline exCatC3 exDiskC3
        = .ok (exDiskC3,
            [Step.coverFetch (coverUrl exMusicC3), Step.mkdirStep (oop_dir exVocalC3),
             Step.signalVariant, Step.signalTrack]) ∧
      ([Step.coverFetch (coverUrl exMusicC3), Step.mkdirStep (oop_dir exVocalC3),
        Step.signalVariant, Step.signalTrack]).any stepIsNetworkFetch = true := by
  refine ⟨by decide, by rfl, by rfl⟩

/-- Witness for claim C3 (amended) at the concrete C3 catalog and disk. -/
theorem claim_C3_witness :
    (∀ m ∈ scheduled exCatC3, ∀ v ∈ (dLookup exCatC3.vocal_map m.id).getD [],
        (resolveChars exCatC3 v.characters).isSome = true ∧
          pathExists exDiskC3
            (oop_path m v ((resolveChars exCatC3 v.characters).getD [])) = true) ∧
      (∃ steps, runPipeline exCatC3 exDiskC3 = .ok (exDiskC3, steps)
        ∧ steps.all stepIsPassive = true
        ∧ steps.countP stepIsCoverFetch = (scheduled exCatC3).length) :=
  ⟨by decide, claim_C3_amended exCatC3 exDiskC3 (by decide)⟩

end SekaiSongCrawl
